import Mathlib

/-!
Verification of the core of the AI study platform backend
(`python_backend`): the SM-2 review scheduler, the agent orchestrator,
the LLM-output parsing helpers, the degraded (no-credential) agent mode,
and the per-user RAG retrieval store.

Conventions of the shallow embedding:
* Python `int` becomes `Int`, Python `float` becomes `ℚ` (the SM-2
  arithmetic is exact decimal arithmetic at the magnitudes involved),
  dates become `Int` day numbers (`today` is a parameter).
* Python exceptions become `Except`/`Option` results; raising before any
  assignment is modelled as returning an error and leaving the store
  untouched.
* External collaborators (the SQL session, the LLM HTTP calls, the
  vector index's similarity ranking) are modelled as explicit
  parameters: the database session becomes a `List Flashcard` store, an
  LLM call becomes an `Except String String` response value, and the
  ChromaDB nearest-neighbour ranking becomes a ranking function that may
  only reorder/select among its input entries.
-/

namespace StudyCore

/-! ## SM-2 review scheduler (`services/sm2.py`, `models/flashcard.py`) -/

/-- `models/flashcard.py`: the `Flashcard` SQLModel row.  `userId` is an
`int` foreign key; `nextReviewDate` is a `date`, modelled as a day
number.  `easinessFactor` is a Python float, modelled as `ℚ`. -/
structure Flashcard where
  id : Int
  front : String
  back : String
  userId : Int
  topicId : Option Int
  repetition : Int
  easinessFactor : ℚ
  interval : Int
  nextReviewDate : Int
deriving Repr, DecidableEq

/-- The two `ValueError`s raised by `update_flashcard_sm2`:
"Quality must be between 0 and 5." and "Flashcard not found". -/
inductive Sm2Error where
  | invalidQuality
  | notFound
deriving Repr, DecidableEq

/-- Python's built-in `round` on a non-negative-or-negative real value:
round half to even (banker's rounding), as applied to
`flashcard.interval * flashcard.easinessFactor` in `sm2.py` line 27. -/
def pyRound (x : ℚ) : Int :=
  let f : Int := ⌊x⌋
  let r : ℚ := x - f
  if r < 1/2 then f
  else if 1/2 < r then f + 1
  else if f % 2 = 0 then f else f + 1

/-- The mutation `update_flashcard_sm2` performs on the flashcard it
found (`sm2.py` lines 16–38): the branch on `quality < 3`, the SM-2
interval/repetition/easiness update, and the unconditional
`nextReviewDate = today + interval` recomputation. -/
def sm2Apply (fc : Flashcard) (quality : Int) (today : Int) : Flashcard :=
  let fc' :=
    if quality < 3 then
      { fc with repetition := 0, interval := 1 }
    else
      let newInterval : Int :=
        if fc.repetition = 0 then 1
        else if fc.repetition = 1 then 6
        else pyRound ((fc.interval : ℚ) * fc.easinessFactor)
      let ef : ℚ :=
        fc.easinessFactor +
          (1/10 - ((5 - quality : Int) : ℚ) * (8/100 + ((5 - quality : Int) : ℚ) * (2/100)))
      let ef' : ℚ := if ef < 13/10 then 13/10 else ef
      { fc with repetition := fc.repetition + 1, interval := newInterval,
                easinessFactor := ef' }
  { fc' with nextReviewDate := today + fc'.interval }

/-- `services/sm2.py` `update_flashcard_sm2`: validates `quality`,
looks the flashcard up by primary key, rejects a missing row or a row
owned by a different user with the same "Flashcard not found" error,
applies the SM-2 mutation, and commits.  The SQL session is modelled as
a `List Flashcard` keyed by `id`; on success the call returns the
updated flashcard together with the updated store. -/
def update_flashcard_sm2 (store : List Flashcard) (flashcard_id : Int)
    (quality : Int) (user_id : Int) (today : Int) :
    Except Sm2Error (Flashcard × List Flashcard) :=
  if ¬ (0 ≤ quality ∧ quality ≤ 5) then
    .error .invalidQuality
  else
    match store.find? (fun fc => fc.id = flashcard_id) with
    | none => .error .notFound
    | some fc =>
      if fc.userId ≠ user_id then .error .notFound
      else
        let fc' := sm2Apply fc quality today
        .ok (fc', store.map (fun g => if g.id = flashcard_id then fc' else g))

end StudyCore

namespace StudyCore

/-! ## Claims about the SM-2 scheduler -/

/-- **C1 (counterexample).** The claimed scenario
`reviewed({repetitionCount:1, easinessFactor:2.5, intervalDays:6}, quality=4)`
does **not** produce `intervalDays == 15`: the code's
`repetitionCount == 1` branch sets the interval to 6 days
(`sm2.py` lines 24–25), so the updated interval is 6, not `round(6*2.5)`. -/
theorem sm2_c1_counterexample :
    ¬ ((sm2Apply ⟨1, "f", "b", 7, none, 1, 5/2, 6, 0⟩ 4 0).interval = 15 ∧
       (sm2Apply ⟨1, "f", "b", 7, none, 1, 5/2, 6, 0⟩ 4 0).repetition = 2) := by
  intro h
  have : (sm2Apply ⟨1, "f", "b", 7, none, 1, 5/2, 6, 0⟩ 4 0).interval = 6 := by
    simp [sm2Apply]
  omega

/-- **C1 (amended).** For the scheduler call on an item with
`repetitionCount = 1`, `easinessFactor = 2.5`, `intervalDays = 6` and
`quality = 4`, the updated item has `intervalDays = 6` (the
`repetitionCount == 1` special case), `repetitionCount = 2`, and
`easinessFactor = 2.5` exactly (quality 4 adds
`0.1 - 1*(0.08 + 0.02) = 0` to the easiness), with
`nextReviewDate = today + 6`. -/
theorem sm2_c1_amended :
    sm2Apply ⟨1, "f", "b", 7, none, 1, 5/2, 6, 0⟩ 4 0 =
      ⟨1, "f", "b", 7, none, 2, 5/2, 6, 6⟩ := by
  simp [sm2Apply]
  norm_num

/-- **C2.** For every flashcard and every quality in `[0, 2]`, the
reviewed operation resets `repetitionCount` to 0 and `intervalDays` to
1, and sets `nextReviewDate` to `today + 1`. -/
theorem sm2_forget_resets (fc : Flashcard) (q today : Int)
    (h0 : 0 ≤ q) (h2 : q ≤ 2) :
    (sm2Apply fc q today).repetition = 0 ∧
    (sm2Apply fc q today).interval = 1 ∧
    (sm2Apply fc q today).nextReviewDate = today + 1 := by
  have hq3 : q < 3 := lt_of_le_of_lt h2 (by norm_num)
  simp [sm2Apply, if_pos hq3]

/-- Witness for `sm2_forget_resets` at a concrete flashcard and
`quality = 1`. -/
theorem sm2_forget_resets_witness :
    (sm2Apply ⟨1, "f", "b", 7, none, 4, 5/2, 10, 0⟩ 1 99).repetition = 0 ∧
    (sm2Apply ⟨1, "f", "b", 7, none, 4, 5/2, 10, 0⟩ 1 99).interval = 1 ∧
    (sm2Apply ⟨1, "f", "b", 7, none, 4, 5/2, 10, 0⟩ 1 99).nextReviewDate = 99 + 1 :=
  sm2_forget_resets ⟨1, "f", "b", 7, none, 4, 5/2, 10, 0⟩ 1 99
    (by decide) (by decide)

/-- **C3.** The reviewed operation fails with the `InvalidQuality`
error exactly when `quality` lies outside `[0, 5]`; the check precedes
the lookup and the mutation (`sm2.py` lines 9–10), so on rejection the
store is untouched (the function returns only the error). -/
theorem sm2_invalid_quality_iff (store : List Flashcard)
    (flashcard_id q user_id today : Int) :
    update_flashcard_sm2 store flashcard_id q user_id today =
        .error .invalidQuality ↔ (q < 0 ∨ 5 < q) := by
  constructor
  · intro h
    by_contra hq
    push_neg at hq
    obtain ⟨hq0, hq5⟩ := hq
    unfold update_flashcard_sm2 at h
    rw [if_neg (by omega)] at h
    split at h
    · exact Sm2Error.noConfusion (Except.error.inj h)
    · split at h
      · exact Sm2Error.noConfusion (Except.error.inj h)
      · simp at h
  · intro hq
    unfold update_flashcard_sm2
    rw [if_pos (by omega)]

/-- **C4.** The `MemoryItem` invariant
(`easinessFactor ≥ 1.3`, `repetitionCount ≥ 0`, `intervalDays ≥ 1`)
is preserved by every reviewed call with `quality ∈ [0, 5]`: the
easiness update is floored at 1.3 in the recall branch and the easiness
is untouched in the forget branch. -/
theorem sm2_invariant_preserved (fc : Flashcard) (q today : Int)
    (hef : 13/10 ≤ fc.easinessFactor) (hrep : 0 ≤ fc.repetition)
    (hint : 1 ≤ fc.interval) (hq0 : 0 ≤ q) (hq5 : q ≤ 5) :
    13/10 ≤ (sm2Apply fc q today).easinessFactor ∧
    0 ≤ (sm2Apply fc q today).repetition ∧
    1 ≤ (sm2Apply fc q today).interval := by
  unfold sm2Apply
  by_cases hq3 : q < 3
  · simp only [if_pos hq3]
    exact ⟨hef, le_refl 0, le_refl 1⟩
  · simp only [if_neg hq3]
    refine ⟨?_, by omega, ?_⟩
    · by_cases hflo :
        fc.easinessFactor +
          (1/10 - ((5 - q : Int) : ℚ) * (8/100 + ((5 - q : Int) : ℚ) * (2/100))) < 13/10
      · simp only [if_pos hflo]
        exact le_rfl
      · simp only [if_neg hflo]
        exact le_of_not_lt hflo
    · by_cases h0 : fc.repetition = 0
      · simp [h0]
      · by_cases h1 : fc.repetition = 1
        · simp [h0, h1]
        · simp only [if_neg h0, if_neg h1]
          have hprod : (13/10 : ℚ) ≤ (fc.interval : ℚ) * fc.easinessFactor := by
            have h1i : (1 : ℚ) ≤ (fc.interval : ℚ) := by exact_mod_cast hint
            calc (13/10 : ℚ) = 1 * (13/10) := by ring
            _ ≤ (fc.interval : ℚ) * fc.easinessFactor := by
                apply mul_le_mul h1i hef (by norm_num)
                exact le_trans (by norm_num) h1i
          have hfloor : 1 ≤ ⌊(fc.interval : ℚ) * fc.easinessFactor⌋ := by
            rw [Int.le_floor]
            exact le_trans (by norm_num) hprod
          unfold pyRound
          dsimp only
          split
          · exact hfloor
          · split
            · omega
            · split
              · exact hfloor
              · omega

/-- Witness for `sm2_invariant_preserved` at a concrete flashcard in
the `repetitionCount ≥ 2` recall branch. -/
theorem sm2_invariant_preserved_witness :
    13/10 ≤ (sm2Apply ⟨1, "f", "b", 7, none, 3, 13/10, 2, 0⟩ 3 0).easinessFactor ∧
    0 ≤ (sm2Apply ⟨1, "f", "b", 7, none, 3, 13/10, 2, 0⟩ 3 0).repetition ∧
    1 ≤ (sm2Apply ⟨1, "f", "b", 7, none, 3, 13/10, 2, 0⟩ 3 0).interval :=
  sm2_invariant_preserved ⟨1, "f", "b", 7, none, 3, 13/10, 2, 0⟩ 3 0
    (by norm_num) (by decide) (by decide) (by decide) (by decide)

/-- **C10.** Per-user ownership in the scheduler: for any in-range
quality, a stored flashcard whose `userId` differs from the caller's
`user_id` makes the reviewed operation fail with the same
"Flashcard not found" error as a missing id (`sm2.py` lines 12–14), and
the error return leaves the store unmodified. -/
theorem sm2_owner_isolation (store : List Flashcard)
    (flashcard_id q user_id today : Int) (fc : Flashcard)
    (hq0 : 0 ≤ q) (hq5 : q ≤ 5)
    (hfind : store.find? (fun f => f.id = flashcard_id) = some fc)
    (hown : fc.userId ≠ user_id) :
    update_flashcard_sm2 store flashcard_id q user_id today =
      .error .notFound ∧
    (∀ store' : List Flashcard,
      store'.find? (fun f => f.id = flashcard_id) = none →
      update_flashcard_sm2 store' flashcard_id q user_id today =
        .error .notFound) := by
  constructor
  · unfold update_flashcard_sm2
    rw [if_neg (by omega)]
    simp only [hfind]
    rw [if_pos hown]
  · intro store' hnone
    unfold update_flashcard_sm2
    rw [if_neg (by omega), hnone]

/-- Witness for `sm2_owner_isolation`: user 8 cannot review user 7's
flashcard, and a missing id fails identically. -/
theorem sm2_owner_isolation_witness :
    update_flashcard_sm2 [⟨1, "f", "b", 7, none, 0, 5/2, 1, 0⟩] 1 4 8 0 =
      .error .notFound ∧
    (∀ store' : List Flashcard,
      store'.find? (fun f => f.id = 1) = none →
      update_flashcard_sm2 store' 1 4 8 0 = .error .notFound) :=
  sm2_owner_isolation [⟨1, "f", "b", 7, none, 0, 5/2, 1, 0⟩] 1 4 8 0
    ⟨1, "f", "b", 7, none, 0, 5/2, 1, 0⟩
    (by decide) (by decide) (by rfl) (by decide)

end StudyCore

namespace StudyCore

/-! ## Goal orchestrator (`agents/orchestrator.py`), well-formed plans

`AgentOrchestrator.run` is an async generator; its yielded `AgentEvent`
stream is modelled as the `List OEvent` returned by `orchestratorRun`.
The two external effects are modelled as parameters: `planOutcome` is
the combined outcome of the Gemini plan-decomposition call, the fence
cleanup and `json.loads` (lines 79–89: `.error e` when any of them
throws, `.ok plan` when a task list is produced), and `inv i task` is
the outcome of `await method(**params)` for step `i` (`.error e` when
the coroutine raises).

This section is the restriction of `run` to decoded plans that are
arrays of JSON objects with string `agent`/`action` values and
string-to-string `params` dicts — the shape every step-ordering
scenario ranges over.  The unrestricted embedding over the raw decoded
JSON value, including the uncaught-exception paths a malformed plan can
take outside the step `try` block, is `orchestratorRunRaw` further
below; the `done`-termination claim is settled against that model. -/

/-- One task of the decomposed plan: `{"agent", "action", "params"}`. -/
structure OTask where
  agent : String
  action : String
  params : List (String × String)
deriving Repr, DecidableEq

/-- `AgentEvent`: `type` plus the payload fields the code puts in
`data` (`text` for thought/error/done, the task list for `plan`, and
`step`/`result` for result events). -/
inductive OEvent where
  | thought (text : String)
  | plan (tasks : List OTask)
  | result (step : Nat) (value : String)
  | error (text : String)
  | done (text : String)
deriving Repr, DecidableEq

/-- The agent registry built in `AgentOrchestrator.__init__`
(lines 33–38). -/
def agentNames : List String := ["planner", "teacher", "quizgen", "evaluator"]

/-- The async methods exposed by each registered agent class, as found
by `getattr` + `asyncio.iscoroutinefunction` (line 112–114):
`PlannerAgent.generate_plan`, `TeacherAgent.generate_lesson`,
`QuizGenAgent.generate_questions` / `generate_mock_exam`,
`EvaluatorAgent.grade_submission`. -/
def asyncMethods (agent : String) : List String :=
  if agent = "planner" then ["generate_plan"]
  else if agent = "teacher" then ["generate_lesson"]
  else if agent = "quizgen" then ["generate_questions", "generate_mock_exam"]
  else if agent = "evaluator" then ["grade_submission"]
  else []

/-- Lines 130–131: `if "user_id" not in params: params["user_id"] = self.user_id`. -/
def injectUserId (uid : String) (ps : List (String × String)) : List (String × String) :=
  if ps.any (fun kv => kv.1 = "user_id") then ps else ps ++ [("user_id", uid)]

/-- Python `repr` of the params dict, as interpolated into the step
thought text (line 124). -/
def paramsRepr (ps : List (String × String)) : String :=
  "\x7b" ++ String.intercalate (", ")
      (ps.map (fun kv => "\x27" ++ kv.1 ++ "\x27: \x27" ++ kv.2 ++ "\x27"))
    ++ "\x7d"

/-- The step thought text of line 124. -/
def stepThought (i : Nat) (t : OTask) : String :=
  "Step " ++ toString (i + 1) ++ ": Executing " ++ t.agent ++ "." ++ t.action
    ++ " with params: " ++ paramsRepr t.params

/-- The step error text of line 139. -/
def stepErrorText (i : Nat) (t : OTask) (e : String) : String :=
  "Error in step " ++ toString (i + 1) ++ " (" ++ t.agent ++ "." ++ t.action
    ++ "): " ++ e

/-- Outcome of one agent-method invocation, indexed by step number. -/
def Invoke : Type := Nat → OTask → Except String String

/-- The `for i, task in enumerate(plan)` loop of lines 100–143:
unknown agents and unknown/non-async actions yield a soft `error` and
`continue`; otherwise a `thought` is emitted (with the pre-injection
params), the invocation runs with `user_id` injected, a success yields
a `result` event and a raised exception yields an `error` event
followed by `break`. -/
def runSteps (inv : Invoke) (uid : String) : Nat → List OTask → List OEvent
  | _, [] => []
  | i, t :: rest =>
    if ¬ agentNames.contains t.agent then
      .error ("Unknown agent: " ++ t.agent) :: runSteps inv uid (i + 1) rest
    else if ¬ (asyncMethods t.agent).contains t.action then
      .error ("Unknown or non-async action: " ++ t.action) :: runSteps inv uid (i + 1) rest
    else
      .thought (stepThought i t) ::
        match inv i { t with params := injectUserId uid t.params } with
        | .ok v => .result (i + 1) v :: runSteps inv uid (i + 1) rest
        | .error e => [.error (stepErrorText i t e)]

/-- `AgentOrchestrator.run` (lines 40–145): the initial thought, the
missing-key early return, the plan-decomposition failure early return
(both end the stream without a `done`), the `plan` event, the step
loop, and the final `done` event. -/
def orchestratorRun (geminiKey : Option String) (uid : String)
    (planOutcome : Except String (List OTask)) (inv : Invoke) : List OEvent :=
  .thought ("Interpreting your goal...") ::
    match geminiKey with
    | none => [.error ("GEMINI_API_KEY not configured. Cannot orchestrate agents.")]
    | some _ =>
      match planOutcome with
      | .error e => [.error ("Sorry, I couldn\x27t create a plan. Error: " ++ e)]
      | .ok plan =>
        .plan plan :: (runSteps inv uid 0 plan ++ [.done ("All tasks completed!")])

/-- **C5.** For a 3-step plan whose steps name registered agents and
actions, where step 1 succeeds, step 2's invocation raises, and step 3
would succeed, the emitted event stream is exactly
`[thought, plan, thought, result(step1), thought, error(step2), done]`:
the first hard failure aborts the loop and step 3 produces no event at
all. -/
theorem orchestrator_step2_failure_sequence (k uid : String)
    (t1 t2 t3 : OTask) (inv : Invoke) (v1 e2 : String)
    (h1a : agentNames.contains t1.agent = true)
    (h1m : (asyncMethods t1.agent).contains t1.action = true)
    (h2a : agentNames.contains t2.agent = true)
    (h2m : (asyncMethods t2.agent).contains t2.action = true)
    (h3a : agentNames.contains t3.agent = true)
    (h3m : (asyncMethods t3.agent).contains t3.action = true)
    (hs1 : inv 0 { t1 with params := injectUserId uid t1.params } = .ok v1)
    (hs2 : inv 1 { t2 with params := injectUserId uid t2.params } = .error e2)
    (hs3 : ∃ v3, inv 2 { t3 with params := injectUserId uid t3.params } = .ok v3) :
    orchestratorRun (some k) uid (.ok [t1, t2, t3]) inv =
      [.thought ("Interpreting your goal..."),
       .plan [t1, t2, t3],
       .thought (stepThought 0 t1),
       .result 1 v1,
       .thought (stepThought 1 t2),
       .error (stepErrorText 1 t2 e2),
       .done ("All tasks completed!")] := by
  simp at h1a h1m h2a h2m h3a h3m
  simp [orchestratorRun, runSteps, h1a, h1m, h2a, h2m, hs1, hs2]

/-- Witness for `orchestrator_step2_failure_sequence`: a concrete
3-step teacher/quizgen/planner plan whose second invocation raises. -/
theorem orchestrator_step2_failure_sequence_witness :
    orchestratorRun (some "key") "u1"
      (.ok [⟨"teacher", "generate_lesson", []⟩,
            ⟨"quizgen", "generate_questions", []⟩,
            ⟨"planner", "generate_plan", []⟩])
      (fun i _ => if i = 1 then .error ("boom") else .ok ("ok")) =
      [.thought ("Interpreting your goal..."),
       .plan [⟨"teacher", "generate_lesson", []⟩,
              ⟨"quizgen", "generate_questions", []⟩,
              ⟨"planner", "generate_plan", []⟩],
       .thought (stepThought 0 ⟨"teacher", "generate_lesson", []⟩),
       .result 1 "ok",
       .thought (stepThought 1 ⟨"quizgen", "generate_questions", []⟩),
       .error (stepErrorText 1 ⟨"quizgen", "generate_questions", []⟩ "boom"),
       .done ("All tasks completed!")] :=
  orchestrator_step2_failure_sequence "key" "u1"
    ⟨"teacher", "generate_lesson", []⟩
    ⟨"quizgen", "generate_questions", []⟩
    ⟨"planner", "generate_plan", []⟩
    (fun i _ => if i = 1 then .error ("boom") else .ok ("ok"))
    "ok" "boom"
    (by decide) (by decide) (by decide) (by decide) (by decide) (by decide)
    (by rfl) (by rfl) ⟨"ok", by rfl⟩

end StudyCore

namespace StudyCore

/-! ## JSON decoding (`json.loads`) and `parse_llm_output` (`agents.py`)

`json.loads` is the Python standard library's strict JSON decoder; it
is embedded here as a recursive-descent parser returning `Option Json`
(`none` models `json.JSONDecodeError`).  Not modelled: the non-standard
`NaN`/`Infinity` literals, surrogate-pair `\uXXXX` escapes, and the
rejection of raw control characters inside strings — no repository
input depends on them. -/

/-- A decoded JSON value (Python's `None`/`bool`/`int|float`/`str`/
`list`/`dict`); numbers are exact rationals. -/
inductive Json where
  | null
  | bool (b : Bool)
  | num (q : ℚ)
  | str (s : String)
  | arr (elems : List Json)
  | obj (members : List (String × Json))

/-- JSON whitespace accepted between tokens: space, tab, LF, CR. -/
def jsonWs (c : Char) : Bool :=
  c = ' ' || c = '\t' || c = '\n' || c = Char.ofNat 13

/-- Drop leading JSON whitespace. -/
def skipWs (cs : List Char) : List Char := cs.dropWhile jsonWs

/-- Value of one hex digit of a `\uXXXX` escape. -/
def hexVal (c : Char) : Option Nat :=
  if '0' ≤ c && c ≤ '9' then some (c.toNat - 48)
  else if 'a' ≤ c && c ≤ 'f' then some (c.toNat - 87)
  else if 'A' ≤ c && c ≤ 'F' then some (c.toNat - 55)
  else none

/-- Parse the body of a JSON string after the opening quote, handling
escape sequences, up to and including the closing quote; returns the
decoded characters and the remaining input. -/
def parseStringBody : List Char → Option (List Char × List Char)
  | [] => none
  | '"' :: rest => some ([], rest)
  | '\\' :: 'u' :: h1 :: h2 :: h3 :: h4 :: rest => do
      let a ← hexVal h1
      let b ← hexVal h2
      let c ← hexVal h3
      let d ← hexVal h4
      let (s, r) ← parseStringBody rest
      some (Char.ofNat (((a * 16 + b) * 16 + c) * 16 + d) :: s, r)
  | '\\' :: e :: rest => do
      let c ← (if e = '"' then some '"'
        else if e = '\\' then some '\\'
        else if e = '/' then some '/'
        else if e = 'b' then some (Char.ofNat 8)
        else if e = 'f' then some (Char.ofNat 12)
        else if e = 'n' then some '\n'
        else if e = 'r' then some (Char.ofNat 13)
        else if e = 't' then some '\t'
        else none)
      let (s, r) ← parseStringBody rest
      some (c :: s, r)
  | c :: rest => do
      let (s, r) ← parseStringBody rest
      some (c :: s, r)

/-- Numeric value of a digit string. -/
def digitsToNat (ds : List Char) : Nat :=
  ds.foldl (fun acc c => acc * 10 + (c.toNat - 48)) 0

/-- Parse a JSON number (`-? int frac? exp?`, leading zeros rejected)
into an exact rational. -/
def parseNumber (cs : List Char) : Option (ℚ × List Char) :=
  let sgn : Bool × List Char := match cs with
    | '-' :: r => (true, r)
    | _ => (false, cs)
  let neg := sgn.1
  let cs1 := sgn.2
  let ip := cs1.takeWhile Char.isDigit
  let r1 := cs1.dropWhile Char.isDigit
  if ip.isEmpty then none
  else if 1 < ip.length && ip.headD ('0') == '0' then none
  else
    let step2 : Option (List Char × List Char) := match r1 with
      | '.' :: r =>
        let fp := r.takeWhile Char.isDigit
        if fp.isEmpty then none else some (fp, r.dropWhile Char.isDigit)
      | _ => some ([], r1)
    match step2 with
    | none => none
    | some (fp, r2) =>
      let step3 : Option (Bool × List Char × List Char) := match r2 with
        | 'e' :: r | 'E' :: r =>
          let es : Bool × List Char := match r with
            | '-' :: rr => (true, rr)
            | '+' :: rr => (false, rr)
            | _ => (false, r)
          let ed := es.2.takeWhile Char.isDigit
          if ed.isEmpty then none
          else some (es.1, ed, es.2.dropWhile Char.isDigit)
        | _ => some (false, [], r2)
      match step3 with
      | none => none
      | some (eneg, ed, r3) =>
        let mag : Int := Int.ofNat (digitsToNat (ip ++ fp))
        let mant : Int := if neg then -mag else mag
        let e10 : Int :=
          (if eneg then -(digitsToNat ed : Int) else (digitsToNat ed : Int))
            - (fp.length : Int)
        some ((mant : ℚ) * (10 : ℚ) ^ e10, r3)

/-- The opening-brace character, written by code point. -/
def lbrace : Char := Char.ofNat 123

/-- The closing-brace character, written by code point. -/
def rbrace : Char := Char.ofNat 125

/-- Dispatch tag for the combined parser `parseJ`: one JSON value, the
non-empty element list of an array, or the non-empty member list of an
object. -/
inductive PMode where
  | value
  | elems
  | members

/-- Intermediate result of `parseJ`, matching the mode it was called
in. -/
inductive POut where
  | v (j : Json)
  | vs (js : List Json)
  | ms (ps : List (String × Json))

/-- The recursive core of the JSON grammar, structurally recursive on
`fuel` so that concrete inputs evaluate definitionally; `fuel` is
chosen large enough in `json_loads` that it never runs out on an input
of the given length. -/
def parseJ : Nat → PMode → List Char → Option (POut × List Char)
  | 0, _, _ => none
  | _ + 1, .value, [] => none
  | fuel + 1, .value, c :: rest =>
    if c = '"' then
      match parseStringBody rest with
      | some (s, r) => some (.v (.str (String.mk s)), r)
      | none => none
    else if c = '[' then
      match skipWs rest with
      | ']' :: r2 => some (.v (.arr []), r2)
      | r1 =>
        match parseJ fuel .elems r1 with
        | some (.vs es, r2) => some (.v (.arr es), r2)
        | _ => none
    else if c = lbrace then
      match skipWs rest with
      | [] => none
      | r0 :: r2 =>
        if r0 = rbrace then some (.v (.obj []), r2)
        else
          match parseJ fuel .members (r0 :: r2) with
          | some (.ms ms, r3) => some (.v (.obj ms), r3)
          | _ => none
    else if c = 't' then
      match rest with
      | 'r' :: 'u' :: 'e' :: r => some (.v (.bool true), r)
      | _ => none
    else if c = 'f' then
      match rest with
      | 'a' :: 'l' :: 's' :: 'e' :: r => some (.v (.bool false), r)
      | _ => none
    else if c = 'n' then
      match rest with
      | 'u' :: 'l' :: 'l' :: r => some (.v .null, r)
      | _ => none
    else
      match parseNumber (c :: rest) with
      | some (q, r) => some (.v (.num q), r)
      | none => none
  | fuel + 1, .elems, cs =>
    match parseJ fuel .value (skipWs cs) with
    | some (.v v, r1) =>
      (match skipWs r1 with
      | ',' :: r2 =>
        match parseJ fuel .elems r2 with
        | some (.vs vs, r3) => some (.vs (v :: vs), r3)
        | _ => none
      | ']' :: r2 => some (.vs [v], r2)
      | _ => none)
    | _ => none
  | fuel + 1, .members, cs =>
    match skipWs cs with
    | '"' :: r0 =>
      (match parseStringBody r0 with
      | none => none
      | some (k, r1) =>
        match skipWs r1 with
        | ':' :: r2 =>
          (match parseJ fuel .value (skipWs r2) with
          | some (.v v, r3) =>
            (match skipWs r3 with
            | c :: r4 =>
              if c = ',' then
                match parseJ fuel .members r4 with
                | some (.ms ms, r5) => some (.ms ((String.mk k, v) :: ms), r5)
                | _ => none
              else if c = rbrace then some (.ms [(String.mk k, v)], r4)
              else none
            | [] => none)
          | _ => none)
        | _ => none)
    | _ => none

/-- Parse one JSON value: the `.value` mode of `parseJ`. -/
def parseValue (fuel : Nat) (cs : List Char) : Option (Json × List Char) :=
  match parseJ fuel .value cs with
  | some (.v j, r) => some (j, r)
  | _ => none

/-- Python's `json.loads`: parse one value surrounded by optional
whitespace; anything else (including trailing input) raises
`JSONDecodeError`, modelled as `none`. -/
def json_loads (s : String) : Option Json :=
  match parseValue (2 * s.length + 4) (skipWs s.data) with
  | some (v, r) => if (skipWs r).isEmpty then some v else none
  | none => none

/-- Start indices (0-based) of every occurrence of `pat` in `cs`. -/
def occurrences (pat cs : List Char) : List Nat :=
  (List.range (cs.length + 1)).filter (fun i => pat.isPrefixOf (cs.drop i))

/-- `re.search(r"---json-fence--- (.*) ---close-fence---", text, re.DOTALL)`
of `agents.py` line 137: the match starts at the first occurrence of
the 8-character opener (three backticks, `json`, newline) and the
greedy `(.*)` extends to the last occurrence of the 4-character closer
(newline, three backticks); returns the captured group. -/
def fenceSearch (text : String) : Option String :=
  let cs := text.data
  match occurrences (("```json\n").data) cs with
  | [] => none
  | p :: _ =>
    match ((occurrences (("\n```").data) cs).filter (fun j => p + 8 ≤ j)).getLast? with
    | none => none
    | some j => some (String.mk ((cs.drop (p + 8)).take (j - (p + 8))))

/-- `agents.py` `parse_llm_output` (lines 130–146): try `json.loads`
directly; on failure search for a ` ```json `-fenced block and decode
its body; raise `ValueError` otherwise.  The Python code interpolates
the decode exception into the first error message; that detail is
elided. -/
def parse_llm_output (text : String) : Except String Json :=
  match json_loads text with
  | some j => .ok j
  | none =>
    match fenceSearch text with
    | some inner =>
      match json_loads inner with
      | some j => .ok j
      | none => .error ("Failed to parse cleaned JSON")
    | none => .error ("No valid JSON found in the LLM output.")

/-- **C8 (counterexample).** The parser does **not** strip a bare
(untagged) code fence: `parse_llm_output` on a reply fenced with plain
triple backticks fails with `ValueError` even though the fenced body
`["x"]` is valid JSON — the regex of `agents.py` line 137 only matches
a ` ```json `-tagged fence, and the cited agents (`quizgen.py` line 45,
`evaluator.py` line 43) call `json.loads` with no stripping at all. -/
theorem parse_llm_output_bare_fence_counterexample :
    parse_llm_output ("```\n[\"x\"]\n```") =
      .error ("No valid JSON found in the LLM output.") := by
  rfl

/-- **C8 (amended).** The shared `parse_llm_output` helper strips only
a language-tagged ` ```json ` fence (found by regex search, the greedy
group extending to the last closing fence) before decoding, and raises
`ValueError` when decoding still fails; bare fences are not stripped.
The cited concrete scenario holds: the ` ```json `-fenced reply
decodes to a one-element list whose element has `front == "a"`. -/
theorem parse_llm_output_fence_behavior :
    parse_llm_output ("```json\n[\x7b\"front\":\"a\",\"back\":\"b\"\x7d]\n```") =
      .ok (.arr [.obj [("front", .str ("a")), ("back", .str ("b"))]]) ∧
    parse_llm_output ("```\n[\"x\"]\n```") =
      .error ("No valid JSON found in the LLM output.") ∧
    json_loads ("```\n[\"x\"]\n```") = none :=
  ⟨rfl, rfl, rfl⟩

end StudyCore

namespace StudyCore

/-! ## Agent capability set: degraded (no-credential) mode

Per-agent `execute` entry points, modelled with their external effects
as parameters: `llmResponse` / `httpResponse` stands for the outcome of
the provider call (`.error` when the call raised).  The retrieval
context and the prompt text only flow into the opaque provider call and
are omitted from the model. -/

/-- Python `str.strip()` whitespace. -/
def pyWs (c : Char) : Bool :=
  c = ' ' || c = '\t' || c = '\n' || c = Char.ofNat 13 || c = Char.ofNat 11
    || c = Char.ofNat 12

/-- Python `s.strip()`. -/
def pyStrip (s : String) : String :=
  String.mk (((s.data.dropWhile pyWs).reverse.dropWhile pyWs).reverse)

/-- Python `s[a:-b]` (clamped like Python slicing). -/
def pySliceDrop (s : String) (a b : Nat) : String :=
  String.mk ((s.data.drop a).take (s.length - b - a))

/-- The fence cleanup repeated in `teacher.py` 73–77, `planner.py`
55–59, `placement.py` 65–70 and `orchestrator.py` 83–87:
strip, then drop a leading ` ```json ` (7 chars) or ` ``` ` (3 chars)
marker together with the trailing ` ``` `, and strip again. -/
def cleanFence (s : String) : String :=
  let t := pyStrip s
  if t.startsWith ("```json") then pyStrip (pySliceDrop t 7 3)
  else if t.startsWith ("```") then pyStrip (pySliceDrop t 3 3)
  else t

/-- `json.loads` lifted to the `Except` result the agents produce:
a decode failure is the raised `JSONDecodeError`. -/
def jsonLoadsE (s : String) : Except String Json :=
  match json_loads s with
  | some j => .ok j
  | none => .error ("JSONDecodeError")

/-- `TeacherAgent.generate_lesson` (`teacher.py` lines 24–79): with no
`GEMINI_API_KEY` it returns the hard-coded mock lesson (lines 38–46);
otherwise it sends the prompt and decodes the fence-cleaned reply. -/
def teacher_generate_lesson (geminiKey : Option String) (topic_name : String)
    (llmResponse : Except String String) : Except String Json :=
  match geminiKey with
  | none =>
    .ok (.obj [("title", .str ("Introduction to " ++ topic_name)),
      ("key_concepts", .arr [.str ("Concept 1"), .str ("Concept 2")]),
      ("explanation", .str ("This is a mock lesson.")),
      ("example", .str ("This is a mock example.")),
      ("summary", .str ("This is a mock summary."))])
  | some _ => llmResponse.bind (fun r => jsonLoadsE (cleanFence r))

/-- `PlannerAgent.generate_plan` (`planner.py` lines 15–61): with no
`GEMINI_API_KEY` it returns the hard-coded mock plan (lines 18–25). -/
def planner_generate_plan (geminiKey : Option String) (exam_date : String)
    (llmResponse : Except String String) : Except String Json :=
  match geminiKey with
  | none =>
    .ok (.obj [("startDate", .str ("2024-01-01")),
      ("endDate", .str exam_date),
      ("weeklyGoal", .str ("Complete study plan")),
      ("blocks", .arr [])])
  | some _ => llmResponse.bind (fun r => jsonLoadsE (cleanFence r))

/-- `PlacementAgent.generate_interview_prep` (`placement.py` lines
14–72): with no `GEMINI_API_KEY` it returns the hard-coded mock prep
material (lines 17–24). -/
def placement_generate_interview_prep (geminiKey : Option String)
    (topic : String) (llmResponse : Except String String) : Except String Json :=
  match geminiKey with
  | none =>
    .ok (.obj [("topic", .str topic),
      ("questions", .arr []),
      ("tips", .arr []),
      ("resources", .arr [])])
  | some _ => llmResponse.bind (fun r => jsonLoadsE (cleanFence r))

/-- `services/anthropic.py` `call_anthropic_api` (lines 7–35): raises
`ValueError` when `ANTHROPIC_API_KEY` is unset (lines 14–15),
otherwise returns the HTTP call's outcome. -/
def call_anthropic_api (anthropicKey : Option String)
    (httpResponse : Except String String) : Except String String :=
  match anthropicKey with
  | none => .error ("ANTHROPIC_API_KEY environment variable not set.")
  | some _ => httpResponse

/-- `QuizGenAgent.generate_questions` (`quizgen.py` lines 11–45):
calls `call_anthropic_api` and decodes the raw reply with `json.loads`
— no mock branch and no fence stripping. -/
def quizgen_generate_questions (anthropicKey : Option String)
    (httpResponse : Except String String) : Except String Json :=
  (call_anthropic_api anthropicKey httpResponse).bind jsonLoadsE

/-- `EvaluatorAgent.grade_submission` (`agents/evaluator.py` lines
10–43): calls `call_anthropic_api` and decodes the raw reply with
`json.loads` — no mock branch. -/
def evaluator_grade_submission (anthropicKey : Option String)
    (httpResponse : Except String String) : Except String Json :=
  (call_anthropic_api anthropicKey httpResponse).bind jsonLoadsE

/-- **C7 (counterexample).** Not every agent degrades to a mock when
no LLM credential is configured: `QuizGenAgent.generate_questions`
fails with the `ValueError` raised by `call_anthropic_api` when
`ANTHROPIC_API_KEY` is unset, even when the (never-reached) provider
reply would have been valid JSON. -/
theorem degraded_mode_counterexample :
    quizgen_generate_questions none (.ok ("[]")) =
      .error ("ANTHROPIC_API_KEY environment variable not set.") := by
  rfl

/-- **C7 (amended).** With no LLM credential configured,
`Teacher.generate_lesson`, `Planner.generate_plan` and
`Placement.generate_interview_prep` return deterministic mock results
of the documented shape, but `QuizGenerator.generate_questions` and
`Evaluator.grade_submission` fail with the `ValueError` raised by
`call_anthropic_api` — they have no mock branch. -/
theorem degraded_mode_amended (topic exam_date : String)
    (resp : Except String String) :
    teacher_generate_lesson none topic resp =
      .ok (.obj [("title", .str ("Introduction to " ++ topic)),
        ("key_concepts", .arr [.str ("Concept 1"), .str ("Concept 2")]),
        ("explanation", .str ("This is a mock lesson.")),
        ("example", .str ("This is a mock example.")),
        ("summary", .str ("This is a mock summary."))]) ∧
    planner_generate_plan none exam_date resp =
      .ok (.obj [("startDate", .str ("2024-01-01")),
        ("endDate", .str exam_date),
        ("weeklyGoal", .str ("Complete study plan")),
        ("blocks", .arr [])]) ∧
    placement_generate_interview_prep none topic resp =
      .ok (.obj [("topic", .str topic),
        ("questions", .arr []),
        ("tips", .arr []),
        ("resources", .arr [])]) ∧
    quizgen_generate_questions none resp =
      .error ("ANTHROPIC_API_KEY environment variable not set.") ∧
    evaluator_grade_submission none resp =
      .error ("ANTHROPIC_API_KEY environment variable not set.") :=
  ⟨rfl, rfl, rfl, rfl, rfl⟩

end StudyCore

namespace StudyCore

/-! ## Per-user RAG store (`rag.py`)

`RAGSystem` wraps one ChromaDB persistent client.  The client's state
is modelled as a flat list of stored entries tagged with the collection
they live in and their `user_id` metadata; the embedding model and the
nearest-neighbour ordering are external, so `query`'s
similarity-descending ordering is modelled by a ranking function
`rank` that may only select/reorder entries of the collection slice it
is given (`RankSound`). -/

/-- One stored ChromaDB document: the collection it was added to, its
id, its `user_id` metadata, its optional `source` metadata, and its
text. -/
structure ChromaEntry where
  collectionName : String
  docId : String
  userMeta : String
  source : Option String
  text : String
deriving Repr, DecidableEq

/-- `RAGSystem.__init__` (line 57): `f"user_{user_id}_documents"`. -/
def collectionNameFor (user_id : String) : String :=
  "user_" ++ user_id ++ "_documents"

/-- `RAGSystem.add_documents` (lines 84–94): each text is stored in
the caller's collection with id `f"{source}_{i}"` and metadata
`{"user_id": user_id, "source": source}`. -/
def add_documents (store : List ChromaEntry) (user_id : String)
    (texts : List String) (source : String) : List ChromaEntry :=
  store ++ texts.enum.map (fun it =>
    ⟨collectionNameFor user_id, source ++ "_" ++ toString it.1,
     user_id, some source, it.2⟩)

/-- A ranking function standing for ChromaDB's similarity ordering: it
may reorder or drop entries of the slice it is given but never invent
entries. -/
def RankSound (rank : String → List ChromaEntry → List ChromaEntry) : Prop :=
  ∀ query_text l e, e ∈ rank query_text l → e ∈ l

/-- `RAGSystem.query` (lines 96–107) restricted to the returned
document texts: ChromaDB searches the caller's collection with the
`where={"user_id": self.user_id}` filter, returns up to `n_results`
entries in similarity order. -/
def queryDocs (rank : String → List ChromaEntry → List ChromaEntry)
    (store : List ChromaEntry) (user_id query_text : String)
    (n_results : Nat) : List String :=
  ((rank query_text (store.filter (fun e =>
      e.collectionName = collectionNameFor user_id
        && e.userMeta = user_id))).take n_results).map (fun e => e.text)

/-- `RAGSystem.query`'s returned context string: the retrieved texts
joined with the separator of line 106. -/
def query (rank : String → List ChromaEntry → List ChromaEntry)
    (store : List ChromaEntry) (user_id query_text : String)
    (n_results : Nat) : String :=
  String.intercalate ("\n---\n") (queryDocs rank store user_id query_text n_results)

/-- **C9.** Owner isolation: for distinct owners `A ≠ B`, any text
returned by `query` for owner `B` after owner `A` added arbitrary
chunks is attributable to an entry that already existed in the base
store with `user_id` metadata `B` — never to one of `A`'s added
chunks, for every query text, ranking and result budget. -/
theorem rag_owner_isolation
    (rank : String → List ChromaEntry → List ChromaEntry)
    (hrank : RankSound rank) (base : List ChromaEntry) (A B : String)
    (hAB : A ≠ B) (texts : List String) (source query_text : String)
    (n_results : Nat) (t : String)
    (ht : t ∈ queryDocs rank (add_documents base A texts source) B
            query_text n_results) :
    ∃ e ∈ base, e.userMeta = B ∧ e.text = t := by
  unfold queryDocs at ht
  obtain ⟨e, hemem, hetext⟩ := List.mem_map.mp ht
  have hranked := List.take_subset _ _ hemem
  have hfil := hrank _ _ _ hranked
  rw [List.mem_filter] at hfil
  obtain ⟨hstore, hcond⟩ := hfil
  have hmeta : e.userMeta = B := by
    have := of_decide_eq_true (Bool.and_elim_right hcond)
    exact this
  unfold add_documents at hstore
  rcases List.mem_append.mp hstore with hbase | hadded
  · exact ⟨e, hbase, hmeta, hetext⟩
  · exfalso
    obtain ⟨it, _, heq⟩ := List.mem_map.mp hadded
    have : e.userMeta = A := by rw [← heq]
    exact hAB (this ▸ hmeta)

/-- Witness for `rag_owner_isolation`: Bob's query over a store where
Alice later added a secret chunk returns only Bob's own pre-existing
text. -/
theorem rag_owner_isolation_witness :
    ∃ e ∈ [ChromaEntry.mk ("user_bob_documents") ("notes_0") ("bob")
              (some ("notes")) ("hello")],
      e.userMeta = "bob" ∧ e.text = "hello" :=
  rag_owner_isolation (fun _ l => l) (fun _ _ _ h => h)
    [ChromaEntry.mk ("user_bob_documents") ("notes_0") ("bob")
        (some ("notes")) ("hello")]
    "alice" "bob" (by decide) ["secret"] "diary" "anything" 5 "hello"
    (by decide)

end StudyCore

namespace StudyCore

/-! ## Goal orchestrator over the raw decoded plan

`orchestrator.py` line 89 binds `plan` to the raw result of
`json.loads`, which can be any JSON value, and lines 100–112 run
`enumerate(plan)`, `task.get(...)`, `agent_name not in self.agents`
and `getattr(agent, action, None)` on it *outside* any `try` block.
Each of those can raise an uncaught `TypeError`/`AttributeError` that
kills the generator: the caller then sees the events yielded so far and
no `done`.  This section embeds `run` over the raw decoded value; a run
is a pair of the yielded event list and the uncaught exception that
ended the generator, if any (`none` = the generator returned normally).
The f-string texts of the per-step events interpolate arbitrary decoded
values (`{agent_name}`, `{params}`); the model keeps those payloads
structured instead of rendering Python `repr`/`str` output. -/

/-- An uncaught exception escaping `AgentOrchestrator.run`. -/
inductive PyExn where
  | typeError
  | attributeError
deriving Repr, DecidableEq

/-- One yielded `AgentEvent` of the raw model.  Fixed texts are kept
verbatim; events whose Python text interpolates a decoded value carry
the interpolated components instead: `errorUnknownAgent` holds the
offending `task.get("agent")` value (line 107), `errorUnknownAction`
the action string (line 117), `stepThought` the 1-based step, agent,
action and pre-injection params of line 124, `stepError` the 1-based
step, agent, action and exception text of line 139. -/
inductive REvent where
  | thought (text : String)
  | plan (decoded : Json)
  | errorText (text : String)
  | errorUnknownAgent (agentVal : Option Json)
  | errorUnknownAction (action : String)
  | stepThought (step : Nat) (agent : String) (action : String) (params : Json)
  | result (step : Nat) (value : String)
  | stepError (step : Nat) (agent : String) (action : String) (exn : String)
  | done (text : String)

/-- Python `dict.get` on an object decoded by `json.loads`: the last
binding of a duplicated key wins, as `json.loads` keeps the last
duplicate. -/
def jGet (kvs : List (String × Json)) (k : String) : Option Json :=
  (kvs.reverse.find? (fun kv => kv.1 = k)).map (fun kv => kv.2)

/-- `for i, task in enumerate(plan)` (line 100) applied to a raw
decoded value: arrays iterate their elements, strings their
one-character substrings, objects their keys (all of which are
non-dict tasks that crash at `task.get`); numbers, booleans and `null`
are not iterable and raise `TypeError` before the first step. -/
def pyIterate : Json → Except PyExn (List Json)
  | .arr xs => .ok xs
  | .str s => .ok (s.data.map (fun c => .str (String.mk [c])))
  | .obj kvs => .ok (kvs.map (fun kv => .str kv.1))
  | _ => .error .typeError

/-- Outcome of one agent-method invocation of the raw model: the step
index, agent, action and the post-injection params dict. -/
def RInvoke : Type := Nat → String → String → List (String × Json) → Except String String

/-- What one iteration of the step loop does with its task. -/
inductive StepRes where
  | crash (e : PyExn)
  | soft (ev : REvent)
  | okStep (ev1 ev2 : REvent)
  | failStep (ev1 ev2 : REvent)

/-- One iteration of the loop body (lines 101–143) on a raw task:

* a non-dict task raises `AttributeError` at `task.get` (line 101,
  outside the `try`) — `crash`;
* an unhashable `agent` value (a decoded list or dict) raises
  `TypeError` at the `not in` membership test (line 105) — `crash`;
* a hashable `agent` value that is not a registered name (a missing
  key, `null`, a number, a boolean, or an unknown string) yields the
  soft unknown-agent error and continues;
* for a registered agent, a non-string (or missing) `action` raises
  `TypeError` at `getattr` (line 112, outside the `try`) — `crash`;
* a string action that is not a coroutine method of the agent yields
  the soft unknown-action error and continues;
* otherwise the step thought is yielded with the pre-injection params;
  inside the `try`, a non-dict `params` value always raises
  (`in`/item-assignment/`**`-unpacking `TypeError`), which is caught
  (line 135) — `failStep` (error event, then `break`); a dict `params`
  gets `user_id` injected and the invocation outcome decides between
  `okStep` (result event) and `failStep`. -/
def execStep (inv : RInvoke) (uid : String) (i : Nat) (task : Json) : StepRes :=
  match task with
  | .obj kvs =>
    match jGet kvs ("agent") with
    | some (.arr _) => .crash .typeError
    | some (.obj _) => .crash .typeError
    | some (.str name) =>
      if agentNames.contains name then
        match jGet kvs ("action") with
        | some (.str a) =>
          if (asyncMethods name).contains a then
            let paramsV := (jGet kvs ("params")).getD (.obj [])
            match paramsV with
            | .obj pkvs =>
              let injected := if pkvs.any (fun kv => kv.1 = "user_id") then pkvs
                else pkvs ++ [("user_id", .str uid)]
              match inv i name a injected with
              | .ok v => .okStep (.stepThought (i + 1) name a paramsV)
                  (.result (i + 1) v)
              | .error e => .failStep (.stepThought (i + 1) name a paramsV)
                  (.stepError (i + 1) name a e)
            | _ => .failStep (.stepThought (i + 1) name a paramsV)
                (.stepError (i + 1) name a ("TypeError"))
          else .soft (.errorUnknownAction a)
        | _ => .crash .typeError
      else .soft (.errorUnknownAgent (some (.str name)))
    | other => .soft (.errorUnknownAgent other)
  | _ => .crash .attributeError

/-- The step loop over the raw task list: events yielded, plus the
uncaught exception if an iteration crashed.  A `failStep` is the
caught-exception `break` — the loop ends normally and the final `done`
still runs; a `crash` ends the generator itself. -/
def runStepsRaw (inv : RInvoke) (uid : String) : Nat → List Json → List REvent × Option PyExn
  | _, [] => ([], none)
  | i, t :: rest =>
    match execStep inv uid i t with
    | .crash e => ([], some e)
    | .soft ev =>
      let p := runStepsRaw inv uid (i + 1) rest
      (ev :: p.1, p.2)
    | .okStep e1 e2 =>
      let p := runStepsRaw inv uid (i + 1) rest
      (e1 :: e2 :: p.1, p.2)
    | .failStep e1 e2 => ([e1, e2], none)

/-- `AgentOrchestrator.run` over the raw decoded plan: the initial
thought; the missing-key and plan-decomposition-failure early returns
(stream ends, no `done`); the `plan` event (line 97, yielded before the
loop touches the value); then the loop — a crash ends the generator
right there, otherwise the final `done` of line 145 is yielded. -/
def orchestratorRunRaw (geminiKey : Option String) (uid : String)
    (planOutcome : Except String Json) (inv : RInvoke) :
    List REvent × Option PyExn :=
  match geminiKey with
  | none =>
    ([.thought ("Interpreting your goal..."),
      .errorText ("GEMINI_API_KEY not configured. Cannot orchestrate agents.")], none)
  | some _ =>
    match planOutcome with
    | .error e =>
      ([.thought ("Interpreting your goal..."),
        .errorText ("Sorry, I couldn\x27t create a plan. Error: " ++ e)], none)
    | .ok planJ =>
      match pyIterate planJ with
      | .error exn =>
        ([.thought ("Interpreting your goal..."), .plan planJ], some exn)
      | .ok tasks =>
        let p := runStepsRaw inv uid 0 tasks
        match p.2 with
        | some exn =>
          (.thought ("Interpreting your goal...") :: .plan planJ :: p.1, some exn)
        | none =>
          (.thought ("Interpreting your goal...") :: .plan planJ ::
            (p.1 ++ [.done ("All tasks completed!")]), none)

/-- A raw task that cannot crash its loop iteration: a JSON object
whose `agent` value is hashable and, when it names a registered agent,
whose `action` value is a string.  (Everything else — unknown agents,
unknown actions, arbitrary `params` — only produces soft errors or a
caught step failure.) -/
def wellFormedTask : Json → Bool
  | .obj kvs =>
    (match jGet kvs ("agent") with
    | some (.arr _) => false
    | some (.obj _) => false
    | some (.str name) =>
      if agentNames.contains name then
        match jGet kvs ("action") with
        | some (.str _) => true
        | _ => false
      else true
    | _ => true)
  | _ => false


/-- A well-formed task never crashes its loop iteration. -/
theorem execStep_no_crash (inv : RInvoke) (uid : String) (i : Nat)
    (t : Json) (hwf : wellFormedTask t = true) (e : PyExn) :
    execStep inv uid i t ≠ .crash e := by
  intro hcr
  unfold execStep at hcr
  unfold wellFormedTask at hwf
  cases t <;> simp_all
  case obj kvs =>
    split at hcr <;> simp_all
    rename_i x name heq
    rcases hwf with hreg | hact
    · rw [if_neg hreg] at hcr
      simp at hcr
    · by_cases hreg : name ∈ agentNames
      · rw [if_pos hreg] at hcr
        rcases hac : jGet kvs ("action") with _ | av
        · rw [hac] at hact
          simp at hact
        · rw [hac] at hact hcr
          cases av <;> simp_all
          split at hcr <;> all_goals try simp_all
          split at hcr <;> all_goals try simp_all
          split at hcr <;> all_goals try simp_all
      · rw [if_neg hreg] at hcr
        simp at hcr

/-- A loop over well-formed tasks never crashes: the generator reaches
the final `done` yield. -/
theorem runStepsRaw_no_crash (inv : RInvoke) (uid : String) :
    ∀ (tasks : List Json) (i : Nat),
      (∀ t ∈ tasks, wellFormedTask t = true) →
      (runStepsRaw inv uid i tasks).2 = none := by
  intro tasks
  induction tasks with
  | nil => intro i _; rfl
  | cons t rest ih =>
    intro i h
    have hwf := h t (List.mem_cons_self t rest)
    have hrest : ∀ t' ∈ rest, wellFormedTask t' = true :=
      fun t' ht' => h t' (List.mem_cons_of_mem t ht')
    simp only [runStepsRaw]
    split
    · rename_i e heq
      exact absurd heq (execStep_no_crash inv uid i t hwf e)
    · simpa using ih (i + 1) hrest
    · simpa using ih (i + 1) hrest
    · rfl

/-- **C6 (counterexample).** When plan decomposition fails to parse,
the stream does **not** end with a `done` event: lines 90–95 yield the
error and `return` immediately, so the run ends on the `error` event —
the generator returns without crashing, and no `done` is ever
emitted. -/
theorem orchestrator_done_counterexample :
    (orchestratorRunRaw (some ("key")) ("u1") (.error ("boom"))
        (fun _ _ _ _ => .ok ("r"))).1.getLast? =
      some (.errorText ("Sorry, I couldn\x27t create a plan. Error: boom")) ∧
    (orchestratorRunRaw (some ("key")) ("u1") (.error ("boom"))
        (fun _ _ _ _ => .ok ("r"))).2 = none ∧
    REvent.done ("All tasks completed!") ∉
      (orchestratorRunRaw (some ("key")) ("u1") (.error ("boom"))
        (fun _ _ _ _ => .ok ("r"))).1 := by
  refine ⟨rfl, rfl, ?_⟩
  intro h
  simp [orchestratorRunRaw] at h

/-- **C6 (amended).** When plan decomposition fails to parse (or the
API key is missing), the orchestrator emits the `error` event and ends
the stream immediately, without a `done`.  A run whose decoded plan
iterates into well-formed tasks always ends with `done` — even when a
step's invocation raises, since that is caught and `break`s to the
final yield.  But a decoded plan that is malformed — not iterable, or
containing a non-dict entry, an unhashable `agent` value, or a
registered agent with a non-string `action` — raises an uncaught
exception outside the `try` block after the `plan` event, and the
stream ends without `done`: concretely, the decoded plan `[42]` dies
with `AttributeError` at `task.get` right after the `plan` event. -/
theorem orchestrator_done_amended (k uid : String) (inv : RInvoke) :
    (∀ e, orchestratorRunRaw (some k) uid (.error e) inv =
        ([.thought ("Interpreting your goal..."),
          .errorText ("Sorry, I couldn\x27t create a plan. Error: " ++ e)], none)) ∧
    (orchestratorRunRaw none uid (.error ("x")) inv =
        ([.thought ("Interpreting your goal..."),
          .errorText ("GEMINI_API_KEY not configured. Cannot orchestrate agents.")],
         none)) ∧
    (∀ planJ tasks, pyIterate planJ = .ok tasks →
      (∀ t ∈ tasks, wellFormedTask t = true) →
      (orchestratorRunRaw (some k) uid (.ok planJ) inv).2 = none ∧
      (orchestratorRunRaw (some k) uid (.ok planJ) inv).1.getLast? =
        some (.done ("All tasks completed!"))) ∧
    orchestratorRunRaw (some k) uid (.ok (.arr [.num 42])) inv =
      ([.thought ("Interpreting your goal..."), .plan (.arr [.num 42])],
       some .attributeError) := by
  refine ⟨fun e => rfl, rfl, ?_, ?_⟩
  · intro planJ tasks hiter hwf
    have hnc := runStepsRaw_no_crash inv uid tasks 0 hwf
    unfold orchestratorRunRaw
    dsimp only
    rw [hiter]
    simp only [hnc]
    refine ⟨trivial, ?_⟩
    rw [List.getLast?_cons_cons]
    rw [show (REvent.plan planJ :: ((runStepsRaw inv uid 0 tasks).1
          ++ [REvent.done ("All tasks completed!")]))
        = (REvent.plan planJ :: (runStepsRaw inv uid 0 tasks).1)
          ++ [REvent.done ("All tasks completed!")] by simp]
    exact List.getLast?_concat _
  · rfl

/-- Witness for `orchestrator_done_amended`: a well-formed one-step
teacher plan whose invocation raises still ends with `done` (the step
error is caught and `break`s to the final yield). -/
theorem orchestrator_done_amended_witness :
    (orchestratorRunRaw (some ("key")) ("u1")
        (.ok (.arr [.obj [("agent", .str ("teacher")),
                          ("action", .str ("generate_lesson"))]]))
        (fun _ _ _ _ => .error ("boom"))).2 = none ∧
    (orchestratorRunRaw (some ("key")) ("u1")
        (.ok (.arr [.obj [("agent", .str ("teacher")),
                          ("action", .str ("generate_lesson"))]]))
        (fun _ _ _ _ => .error ("boom"))).1.getLast? =
      some (.done ("All tasks completed!")) :=
  (orchestrator_done_amended ("key") ("u1")
      (fun _ _ _ _ => .error ("boom"))).2.2.1
    (.arr [.obj [("agent", .str ("teacher")),
                 ("action", .str ("generate_lesson"))]])
    [.obj [("agent", .str ("teacher")), ("action", .str ("generate_lesson"))]]
    (by rfl)
    (by
      intro t ht
      rw [List.mem_singleton] at ht
      subst ht
      rfl)

end StudyCore
